import Mathlib

/-!
Verification development for the attireum-backend scraping/aggregation core.

The Python source is shallowly embedded: pure helpers become Lean functions,
the network and the browser are modelled as explicit inputs (an adapter run is
a value describing what the external world returned or how the task behaved),
prices are exact rationals, and machine words inside SHA-256 are naturals
reduced modulo 2^32.
-/

namespace Attireum

/-! ## SHA-256 (model of hashlib.sha256(...).hexdigest())

A direct implementation of FIPS 180-4 over byte lists, used by
`generate_product_hash` below.  Words are naturals kept below 2^32. -/

def w32 (n : Nat) : Nat := n % 4294967296

def rotr32 (k x : Nat) : Nat := w32 ((x >>> k) ||| (x <<< (32 - k)))

def bnot32 (x : Nat) : Nat := x ^^^ 4294967295

def bsig0 (x : Nat) : Nat := (rotr32 2 x) ^^^ (rotr32 13 x) ^^^ (rotr32 22 x)

def bsig1 (x : Nat) : Nat := (rotr32 6 x) ^^^ (rotr32 11 x) ^^^ (rotr32 25 x)

def ssig0 (x : Nat) : Nat := (rotr32 7 x) ^^^ (rotr32 18 x) ^^^ (x >>> 3)

def ssig1 (x : Nat) : Nat := (rotr32 17 x) ^^^ (rotr32 19 x) ^^^ (x >>> 10)

def chFn (x y z : Nat) : Nat := (x &&& y) ^^^ ((bnot32 x) &&& z)

def majFn (x y z : Nat) : Nat := (x &&& y) ^^^ (x &&& z) ^^^ (y &&& z)

/-- The 64 round constants of FIPS 180-4 §4.2.2, written in decimal. -/
def sha256K : List Nat :=
  [1116352408, 1899447441, 3049323471, 3921009573, 961987163, 1508970993,
   2453635748, 2870763221, 3624381080, 310598401, 607225278, 1426881987,
   1925078388, 2162078206, 2614888103, 3248222580, 3835390401, 4022224774,
   264347078, 604807628, 770255983, 1249150122, 1555081692, 1996064986,
   2554220882, 2821834349, 2952996808, 3210313671, 3336571891, 3584528711,
   113926993, 338241895, 666307205, 773529912, 1294757372, 1396182291,
   1695183700, 1986661051, 2177026350, 2456956037, 2730485921, 2820302411,
   3259730800, 3345764771, 3516065817, 3600352804, 4094571909, 275423344,
   430227734, 506948616, 659060556, 883997877, 958139571, 1322822218,
   1537002063, 1747873779, 1955562222, 2024104815, 2227730452, 2361852424,
   2428436474, 2756734187, 3204031479, 3329325298]

/-- The eight initial hash values of FIPS 180-4 §5.3.3, written in decimal. -/
def sha256H0 : List Nat :=
  [1779033703, 3144134277, 1013904242, 2773480762,
   1359893119, 2600822924, 528734635, 1541459225]

/-- Pad a byte-list message per FIPS 180-4: append 0x80, zero bytes up to
56 mod 64, then the bit length as 8 big-endian bytes. -/
def sha256pad (msg : List Nat) : List Nat :=
  let L := msg.length
  let k := (119 - (L % 64)) % 64
  let lenBytes := (List.range 8).map (fun i => ((8 * L) >>> (8 * (7 - i))) % 256)
  msg ++ [128] ++ List.replicate k 0 ++ lenBytes

/-- Group bytes into big-endian 32-bit words. -/
def bytesToWords : List Nat → List Nat
  | b0 :: b1 :: b2 :: b3 :: rest => (((b0 * 256 + b1) * 256 + b2) * 256 + b3) :: bytesToWords rest
  | _ => []

/-- Split a list into 64-element chunks. -/
def chunk64 (l : List Nat) : List (List Nat) :=
  if l = [] then [] else l.take 64 :: chunk64 (l.drop 64)
termination_by l.length
decreasing_by
  simp only [List.length_drop]
  rename_i h
  have : 0 < l.length := List.length_pos.mpr h
  omega

/-- Extend 16 message-schedule words to 64. -/
def sha256schedule (ws : List Nat) : List Nat :=
  (List.range 48).foldl
    (fun w _ =>
      let n := w.length
      w ++ [w32 (ssig1 (w.getD (n - 2) 0) + w.getD (n - 7) 0 +
                 ssig0 (w.getD (n - 15) 0) + w.getD (n - 16) 0)])
    ws

/-- One SHA-256 compression round on the 8-word working state. -/
def sha256round (st : List Nat) (kw : Nat × Nat) : List Nat :=
  let a := st.getD 0 0
  let b := st.getD 1 0
  let c := st.getD 2 0
  let d := st.getD 3 0
  let e := st.getD 4 0
  let f := st.getD 5 0
  let g := st.getD 6 0
  let h := st.getD 7 0
  let t1 := w32 (h + bsig1 e + chFn e f g + kw.1 + kw.2)
  let t2 := w32 (bsig0 a + majFn a b c)
  [w32 (t1 + t2), a, b, c, w32 (d + t1), e, f, g]

def sha256compress (h : List Nat) (block : List Nat) : List Nat :=
  let ws := sha256schedule (bytesToWords block)
  let fin := (sha256K.zip ws).foldl sha256round h
  (h.zip fin).map (fun p => w32 (p.1 + p.2))

def sha256words (msg : List Nat) : List Nat :=
  (chunk64 (sha256pad msg)).foldl sha256compress sha256H0

def hexDigitChar (n : Nat) : Char :=
  if n < 10 then Char.ofNat (48 + n) else Char.ofNat (87 + n)

def wordToHex (n : Nat) : List Char :=
  (List.range 8).map (fun i => hexDigitChar ((n >>> (4 * (7 - i))) % 16))

/-- Model of hashlib.sha256(s.encode()).hexdigest(): SHA-256 of the UTF-8
bytes of the string, rendered as 64 lowercase hex characters. -/
def sha256hex (s : String) : String :=
  String.mk (((sha256words (s.toUTF8.toList.map UInt8.toNat)).map wordToHex).flatten)

/-! ## Price/Text Normalizer (BaseScraper._extract_price)

The source is

    price_clean = price_text.replace('$', '').replace('€', '').replace('£', '')
    price_clean = price_clean.replace(',', '').strip()
    return float(price_clean)

wrapped in try/except returning 0.0.  Replacing a one-character substring by
the empty string removes every occurrence of that character, so the chain of
replace calls is embedded as a character filter; float() is embedded by
`pythonFloat` below. -/

def isCurrencyJunk (c : Char) : Bool :=
  c == '$' || c == '€' || c == '£' || c == ','

def cleanChars (l : List Char) : List Char :=
  l.filter (fun c => !(isCurrencyJunk c))

/-- Model of str.strip(): drop leading and trailing whitespace. -/
def trimChars (l : List Char) : List Char :=
  ((l.dropWhile Char.isWhitespace).reverse.dropWhile Char.isWhitespace).reverse

/-- Model of str.strip() on strings. -/
def pyStrip (s : String) : String := String.mk (trimChars s.toList)

/-- Tests whether the second list is an initial segment of the first. -/
def leadsWith : List Char → List Char → Bool
  | _, [] => true
  | [], _ :: _ => false
  | h :: t, n :: m => h == n && leadsWith t m

/-- Model of str.startswith(pre). -/
def pyBeginsWith (s pre : String) : Bool := leadsWith s.toList pre.toList

/-- Model of str.lower() (ASCII case folding suffices for the source data). -/
def pyLower (s : String) : String := String.mk (s.toList.map Char.toLower)

/-- Model of str.replace(old, new): non-overlapping left-to-right
replacement of every occurrence; an empty pattern leaves the input unchanged
(no call site uses one). -/
def replaceSub (needle repl : List Char) (l : List Char) : List Char :=
  match l with
  | [] => []
  | c :: t =>
    if needle ≠ [] ∧ leadsWith (c :: t) needle then
      repl ++ replaceSub needle repl (t.drop (needle.length - 1))
    else c :: replaceSub needle repl t
termination_by l.length
decreasing_by
  · simp only [List.length_drop, List.length_cons]
    omega
  · simp only [List.length_cons]
    omega

def pyReplace (s old new : String) : String :=
  String.mk (replaceSub old.toList new.toList s.toList)

def digitsVal (l : List Char) : Nat :=
  l.foldl (fun a c => 10 * a + (c.toNat - 48)) 0

def parseNatDigits (l : List Char) : Option Nat :=
  if l.isEmpty then none
  else if l.all Char.isDigit then some (digitsVal l) else none

/-- Unsigned decimal mantissa: digits, digits.digits, digits., or .digits. -/
def parseMantissa (l : List Char) : Option ℚ :=
  match l.span Char.isDigit with
  | (ip, rest) =>
    match rest with
    | [] => if ip.isEmpty then none else some (digitsVal ip : ℚ)
    | '.' :: fp =>
      if fp.all Char.isDigit && !(ip.isEmpty && fp.isEmpty) then
        some ((digitsVal ip : ℚ) + (digitsVal fp : ℚ) / (10 : ℚ) ^ fp.length)
      else none
    | _ => none

def parseSignedMantissa : List Char → Option ℚ
  | '+' :: t => parseMantissa t
  | '-' :: t => (parseMantissa t).map Neg.neg
  | l => parseMantissa l

def parseExponent : List Char → Option ℤ
  | '+' :: t => (parseNatDigits t).map Int.ofNat
  | '-' :: t => (parseNatDigits t).map (fun n => -(n : ℤ))
  | l => (parseNatDigits l).map Int.ofNat

def splitExponent (l : List Char) : List Char × Option (List Char) :=
  match l.span (fun c => !(c == 'e' || c == 'E')) with
  | (m, []) => (m, none)
  | (m, _ :: e) => (m, some e)

/-- Model of the Python builtin float(str) on finite decimal literals:
surrounding whitespace is ignored, then an optional sign, a decimal mantissa
and an optional e/E exponent are accepted; anything else raises ValueError.
(Digit-group underscores and the inf/nan spellings are not modelled; no claim
depends on them.)  The result is the exact rational value. -/
def pythonFloat (l : List Char) : Except String ℚ :=
  let t := trimChars l
  match splitExponent t with
  | (m, none) =>
    match parseSignedMantissa m with
    | some v => Except.ok v
    | none => Except.error ("could not convert string to float")
  | (m, some ec) =>
    match parseSignedMantissa m, parseExponent ec with
    | some v, some ex => Except.ok (v * (10 : ℚ) ^ ex)
    | _, _ => Except.error ("could not convert string to float")

/-- BaseScraper._extract_price on the characters of the input text: strip the
currency symbols and commas, trim, parse as float; any parse failure is caught
and turned into 0.0. -/
def extractPriceChars (l : List Char) : ℚ :=
  match pythonFloat (trimChars (cleanChars l)) with
  | Except.ok v => v
  | Except.error _ => 0

/-- BaseScraper._extract_price. -/
def extract_price (s : String) : ℚ := extractPriceChars s.toList

/-! ## Canonical Product record

The Python adapters build product dicts; the keys they populate are embedded
as the fields below.  Prices and timestamps are exact rationals; a dict key
that can be absent or None is an Option.  `product_hash` defaults to the
empty string for adapters that do not set it (the ASOS scraper). -/

structure Product where
  product_id : String := ""
  retailer_id : String := ""
  retailer_name : String := ""
  name : String := ""
  brand : String := ""
  category : String := ""
  price : ℚ := 0
  original_price : Option ℚ := none
  discount_percentage : Option ℚ := none
  size_availability : List String := []
  image_urls : List String := []
  product_url : String := ""
  description : String := ""
  material : Option String := none
  in_stock : Bool := true
  rating : Option ℚ := none
  product_hash : String := ""
  scraped_at : Option ℚ := none
deriving Repr, DecidableEq

/-- Model of the f-string rendering of the float price inside
`f"{product_data['brand']}_{product_data['name']}_{product_data['price']}"`:
a fixed deterministic (and injective) encoding of the exact rational price.
The hashing claims use only that equal prices render equally. -/
def pyFloatRepr (q : ℚ) : String := toString q.num ++ "d" ++ toString q.den

/-- The string hashed by BaseScraper._generate_product_hash: the brand, name
and price fields joined with the literal separator "_". -/
def hashInput (p : Product) : String :=
  p.brand ++ "_" ++ p.name ++ "_" ++ pyFloatRepr p.price

/-- BaseScraper._generate_product_hash: sha256 hexdigest of `hashInput`.
It reads only the brand, name and price keys of the product dict. -/
def generate_product_hash (p : Product) : String := sha256hex (hashInput p)

/-! ## Farfetch adapter (FarfetchScraper._parse_product_card and
BaseScraper.search_products)

A product card element is embedded as the record of texts/attributes the
parser tries to read; a missing field models the per-field try/except whose
except branch installs the default. -/

structure RawCard where
  brandText : Option String := none
  nameText : Option String := none
  priceText : Option String := none
  originalPriceText : Option String := none
  imgSrc : Option String := none
  href : Option String := none
deriving Repr, DecidableEq

def farfetch_base_url : String := "https://www.farfetch.com"

/-- Model of Python round(x, 2) (to two decimal places). -/
def round2 (q : ℚ) : ℚ := (round (q * 100) : ℤ) / 100

def ffBrand (card : RawCard) : String :=
  match card.brandText with
  | some t => pyStrip t
  | none => "Unknown"

def ffName (card : RawCard) : String :=
  match card.nameText with
  | some t => pyStrip t
  | none => "Unknown Product"

def ffPrice (card : RawCard) : ℚ :=
  match card.priceText with
  | some t => extract_price (pyStrip t)
  | none => 0

/-- The original_price / discount_percentage pair: when the sale-price element
is present the discount is computed only if the original price is positive;
when it is absent both stay None. -/
def ffOrigDisc (card : RawCard) : Option ℚ × Option ℚ :=
  match card.originalPriceText with
  | some t =>
    let op := extract_price (pyStrip t)
    (some op, if op > 0 then some (round2 ((op - ffPrice card) / op * 100)) else none)
  | none => (none, none)

def ffImages (card : RawCard) : List String :=
  match card.imgSrc with
  | some src => [src]
  | none => []

def ffUrl (card : RawCard) : String :=
  match card.href with
  | some url => if pyBeginsWith url ("http") then url else farfetch_base_url ++ url
  | none => ""

/-- FarfetchScraper._parse_product_card: build the product dict field by
field, then validate the essential fields — an empty product_url or a price
equal to 0 yields None (a per-item skip). -/
def farfetch_parse_product_card (card : RawCard) : Option Product :=
  if ffUrl card = "" ∨ ffPrice card = 0 then none
  else some
    { brand := ffBrand card
      name := ffName card
      price := ffPrice card
      original_price := (ffOrigDisc card).1
      discount_percentage := (ffOrigDisc card).2
      image_urls := ffImages card
      product_url := ffUrl card
      category := "Clothing"
      size_availability := []
      description := ""
      material := some ""
      in_stock := true
      rating := none }

/-- BaseScraper.search_products.  The driver, the navigation and the card
extraction are external effects: the `fetch` argument is what they delivered —
`Except.error` for any exception before/while extracting cards (the outer
catch-all logs it and the accumulated list, still empty, is returned), and
`Except.ok cards` for a successful extraction (a TimeoutException while
waiting for cards is the `Except.ok []` case).  Each card is parsed; a None
skip contributes nothing; a parsed product is tagged with retailer_name and
scraped_at and then its product_hash. -/
def baseStep (retailer : String) (now : ℚ) (acc : List Product) (card : RawCard) :
    List Product :=
  match farfetch_parse_product_card card with
  | some pd =>
    let tagged := { pd with retailer_name := retailer, scraped_at := some now }
    acc ++ [{ tagged with product_hash := generate_product_hash tagged }]
  | none => acc

def base_search_products (retailer : String) (now : ℚ)
    (fetch : Except String (List RawCard)) : List Product :=
  match fetch with
  | Except.error _ => []
  | Except.ok cards => cards.foldl (baseStep retailer now) []

/-! ## ASOS adapter (ASOSScraper.search_products and _transform_product)

An ASOS API product is a JSON object; the fields the transform reads are
embedded below.  The nested price object can be a dict (with an optional
numeric value), a bare number, or absent. -/

inductive AsosNode where
  | obj (value : Option ℚ)
  | num (v : ℚ)
deriving Repr, DecidableEq

structure AsosPriceDict where
  current : Option AsosNode := none
  previous : Option AsosNode := none
deriving Repr, DecidableEq

inductive AsosPrice where
  | dict (d : AsosPriceDict)
  | num (v : ℚ)
deriving Repr, DecidableEq

structure AsosRaw where
  id : String := ""
  name : Option String := none
  brandName : Option String := none
  price : Option AsosPrice := none
  imageUrl : Option String := none
  isInStock : Option Bool := none
deriving Repr, DecidableEq

/-- Model of the `needle in haystack` substring test of Python. -/
def containsSub (needle : List Char) : List Char → Bool
  | [] => leadsWith [] needle
  | c :: t => leadsWith (c :: t) needle || containsSub needle t

def containsStr (hay pat : String) : Bool := containsSub pat.toList hay.toList

/-- The current/previous price extraction of _transform_product.  A missing
price key gives the empty dict; a dict current with a missing value gives
float(0); a bare falsy (zero) number gives 0 through the conditional
expression; a previous that is a dict yields its value key (possibly None),
otherwise the bare value itself. -/
def asosPrices (p : AsosRaw) : ℚ × Option ℚ :=
  match p.price.getD (AsosPrice.dict {}) with
  | AsosPrice.dict d =>
    let cp : ℚ :=
      match d.current with
      | none => 0
      | some (AsosNode.obj v) => v.getD 0
      | some (AsosNode.num v) => if v = 0 then 0 else v
    let pp : Option ℚ :=
      match d.previous with
      | none => none
      | some (AsosNode.obj v) => v
      | some (AsosNode.num v) => some v
    (cp, pp)
  | AsosPrice.num v => (if v = 0 then 0 else v, none)

/-- The discount computation: only a truthy previous price strictly above the
current price produces original_price and discount_percentage. -/
def asosDiscount (current : ℚ) (previous : Option ℚ) : Option ℚ × Option ℚ :=
  match previous with
  | some pv =>
    if pv ≠ 0 ∧ pv > current then (some pv, some ((pv - current) / pv * 100))
    else (none, none)
  | none => (none, none)

def asosCategory (nameLower : String) : String :=
  if containsStr nameLower ("dress") then "Dresses"
  else if containsStr nameLower ("top") ∨ containsStr nameLower ("shirt")
      ∨ containsStr nameLower ("blouse") then "Tops"
  else if containsStr nameLower ("pant") ∨ containsStr nameLower ("jean")
      ∨ containsStr nameLower ("trouser") then "Pants"
  else if containsStr nameLower ("shoe") ∨ containsStr nameLower ("sneaker")
      ∨ containsStr nameLower ("boot") then "Shoes"
  else if containsStr nameLower ("jacket") ∨ containsStr nameLower ("coat")
      ∨ containsStr nameLower ("blazer") then "Outerwear"
  else if containsStr nameLower ("skirt") then "Skirts"
  else "Fashion"

/-- ASOSScraper._transform_product.  It always returns a product dict (there
is no validation step and no None return); the product_url is built from the
id, so it is never empty; a missing price yields price 0.  The scraped_at
ISO timestamp is modelled by the numeric `now`. -/
def asos_transform (p : AsosRaw) (now : ℚ) : Product :=
  let name := p.name.getD "Unknown Product"
  let brand := p.brandName.getD "ASOS"
  let (current_price, previous_price) := asosPrices p
  let (original_price, discount_percentage) := asosDiscount current_price previous_price
  let image_url0 := p.imageUrl.getD ""
  let image_url :=
    if image_url0 ≠ "" ∧ ¬ pyBeginsWith image_url0 ("http") then "https://" ++ image_url0
    else image_url0
  let image_urls : List String :=
    if image_url ≠ "" then
      let base_image := pyReplace image_url ("$n_") ("$01")
      (List.range' 1 4).map (fun i => pyReplace base_image ("$01") ("$0" ++ toString i))
    else []
  { product_id := "asos_" ++ p.id
    retailer_id := "asos"
    retailer_name := "ASOS"
    name := name
    brand := brand
    category := asosCategory (pyLower name)
    price := current_price
    original_price := original_price
    discount_percentage := discount_percentage
    size_availability := ["XS", "S", "M", "L", "XL"]
    image_urls := if image_urls ≠ [] then image_urls
                  else if image_url ≠ "" then [image_url] else []
    product_url := "https://www.asos.com/us/prd/" ++ p.id
    description := brand ++ " " ++ name
    material := none
    in_stock := p.isInStock.getD true
    rating := none
    scraped_at := some now }

/-- Python truthiness of the optional numeric price filters: None and 0 are
falsy. -/
def pyTruthyQ : Option ℚ → Bool
  | none => false
  | some v => decide (v ≠ 0)

/-- ASOSScraper.search_products.  The HTTP request is external: `resp` is its
outcome — `Except.error` for a RequestException or any other exception (both
handlers return []), `Except.ok raws` for a parsed JSON product list.  The
first `limit` products are transformed in order; a truthy min_price drops
products strictly below it and a truthy max_price drops products strictly
above it (the two continue statements); survivors are appended. -/
def asosStep (min_price max_price : Option ℚ) (now : ℚ) (acc : List Product)
    (raw : AsosRaw) : List Product :=
  let t := asos_transform raw now
  if pyTruthyQ min_price ∧ t.price < min_price.getD 0 then acc
  else if pyTruthyQ max_price ∧ t.price > max_price.getD 0 then acc
  else acc ++ [t]

def asos_search_products (resp : Except String (List AsosRaw)) (limit : ℕ)
    (min_price max_price : Option ℚ) (now : ℚ) : List Product :=
  match resp with
  | Except.error _ => []
  | Except.ok raws => (raws.take limit).foldl (asosStep min_price max_price now) []

/-! ## Orchestrator (ScraperManager)

`search_all_retailers` submits one `scraper.search_products(query_params)`
task per registered scraper to a ThreadPoolExecutor (worker budget 5; the
embedding assumes at most 5 registered scrapers, as in the source, so every
task starts immediately) and iterates `as_completed(future_to_scraper)`.

The behaviour of one submitted task is embedded as `TaskRun`: it either
completes at some finish time with a result or an exception, or it never
completes.  `as_completed` yields exactly the futures that complete, in
completion order, and blocks forever when some future never completes —
the `tasks` list is given in that completion order, and a `hangs` entry makes
the whole call diverge, embedded as the `none` result.  On a yielded (hence
already completed) future, `future.result(timeout=60)` returns its value or
re-raises its exception immediately — the 60-second argument cannot fire —
and the except branch logs and continues.  The returned pair is the merged
accumulator together with the elapsed time (the latest finish time). -/

inductive TaskRun where
  | completes (result : Except String (List Product)) (finish : ℕ)
  | hangs
deriving Repr

def isHang : TaskRun → Bool
  | TaskRun.hangs => true
  | _ => false

def mergeStep (acc : List Product × ℕ) (t : String × TaskRun) : List Product × ℕ :=
  match t.2 with
  | TaskRun.completes (Except.ok ps) f => (acc.1 ++ ps, max acc.2 f)
  | TaskRun.completes (Except.error _) f => (acc.1, max acc.2 f)
  | TaskRun.hangs => acc

/-- ScraperManager.search_all_retailers.  `none` means the call never
returns. -/
def search_all_retailers (tasks : List (String × TaskRun)) :
    Option (List Product × ℕ) :=
  if tasks.any (fun t => isHang t.2) then none
  else some (tasks.foldl mergeStep ([], 0))

/-- The per-adapter product lists of the tasks that completed successfully,
in completion order. -/
def successfulProducts (tasks : List (String × TaskRun)) : List (List Product) :=
  tasks.filterMap (fun t =>
    match t.2 with
    | TaskRun.completes (Except.ok ps) _ => some ps
    | _ => none)

/-- ScraperManager.search_single_retailer.  The registry maps retailer names
to what `scraper.search_products(query_params)` would deliver for the query
at hand: a product list or a raised exception.  An unknown name logs and
returns []; a raising scraper is caught, logged, and [] is returned. -/
def search_single_retailer (scrapers : List (String × Except String (List Product)))
    (retailer_name : String) : List Product :=
  match List.lookup retailer_name scrapers with
  | none => []
  | some (Except.ok ps) => ps
  | some (Except.error _) => []

/-! ## Filter/Sort post-processor -/

/-- Modelled from the spec: `apply_sort(products, key)` is described in §4.4
but is implemented nowhere under src/ — app/api/v1/search.py only declares the
`sort_by` request field.  Spec words: supported keys price_asc, price_desc,
discount_desc (missing discount treated as 0), date_desc (missing timestamp
treated as earliest); unknown key: identity (no reordering, no error).  The
stable sort is embedded as insertion sort, which agrees with any stable
sorting algorithm. -/
def apply_sort (products : List Product) (key : String) : List Product :=
  if key = "price_asc" then
    products.insertionSort (fun a b => a.price ≤ b.price)
  else if key = "price_desc" then
    products.insertionSort (fun a b => b.price ≤ a.price)
  else if key = "discount_desc" then
    products.insertionSort (fun a b =>
      b.discount_percentage.getD 0 ≤ a.discount_percentage.getD 0)
  else if key = "date_desc" then
    products.insertionSort (fun a b => b.scraped_at.getD 0 ≤ a.scraped_at.getD 0)
  else products

/-! ## Concrete inputs used by individual claims -/

def pC1base : Product := { brand := "Gucci", name := "Silk Dress", price := 1200 }

/-- A product as the Farfetch adapter would emit it, returned identically by
two concurrent adapter tasks. -/
def pC1 : Product :=
  { pC1base with retailer_name := "Farfetch", scraped_at := some 1700000000,
                 product_hash := generate_product_hash pC1base }

def dupTasks : List (String × TaskRun) :=
  [("Farfetch", TaskRun.completes (Except.ok [pC1]) 1),
   ("ASOS", TaskRun.completes (Except.ok [pC1]) 2)]

def pC2 : Product := { brand := "Prada", name := "Wool Coat", price := 2100 }

def pC4 : Product := { brand := "Chloe", name := "Scarf", price := 310 }

/-- An ASOS API product with no price key at all. -/
def rawC3 : AsosRaw := { id := "123", name := some "Mystery Dress" }

def cardC3 : RawCard := { priceText := some "$1,200", href := some "/shopping/dress" }

def parsedC3 : Product :=
  { brand := "Unknown", name := "Unknown Product", price := 1200,
    category := "Clothing", material := some "",
    product_url := "https://www.farfetch.com/shopping/dress" }

def pC6a : Product :=
  { brand := "Prada", name := "Leather Bag", price := 950, retailer_name := "Farfetch" }

def pC6b : Product :=
  { brand := "Prada", name := "Leather Bag", price := 950, retailer_name := "ASOS",
    description := "every other field may differ", in_stock := false }

def asosRawNum (v : ℚ) : AsosRaw := { price := some (AsosPrice.num v) }

def rawsC7 : List AsosRaw := [asosRawNum 400, asosRawNum 600, asosRawNum 900, asosRawNum 1200]

def rawsC7incl : List AsosRaw :=
  [asosRawNum 400, asosRawNum 500, asosRawNum 1000, asosRawNum 1200]

def sortPs : List Product := [{ price := 900 }, { price := 100 }, { price := 500 }]

def pC9a : Product := { brand := "A_B", name := "C", price := 750 }

def pC9b : Product := { brand := "A", name := "B_C", price := 750 }

def regC10 : List (String × Except String (List Product)) :=
  [("Farfetch", Except.ok [])]

/-! ## Helper lemmas -/

theorem cleanChars_idem (l : List Char) : cleanChars (cleanChars l) = cleanChars l := by
  simp [cleanChars, List.filter_filter]

theorem mergeStep_fold_fst (tasks : List (String × TaskRun)) (ps : List Product) (n : ℕ) :
    (tasks.foldl mergeStep (ps, n)).1 = ps ++ (successfulProducts tasks).flatten := by
  induction tasks generalizing ps n with
  | nil => simp [successfulProducts]
  | cons hd tl ih =>
    obtain ⟨name, run⟩ := hd
    cases run with
    | completes r f =>
      cases r with
      | ok qs =>
        simp only [List.foldl_cons, mergeStep, successfulProducts, List.filterMap_cons]
        simp [ih, successfulProducts]
      | error e =>
        simp only [List.foldl_cons, mergeStep, successfulProducts, List.filterMap_cons]
        simp [ih, successfulProducts]
    | hangs =>
      simp only [List.foldl_cons, mergeStep, successfulProducts, List.filterMap_cons]
      simp [ih, successfulProducts]

theorem search_all_products_eq (tasks : List (String × TaskRun))
    (h : tasks.any (fun t => isHang t.2) = false) :
    (search_all_retailers tasks).map Prod.fst = some ((successfulProducts tasks).flatten) := by
  unfold search_all_retailers
  simp [h, mergeStep_fold_fst]

theorem ffparse_valid (card : RawCard) (p : Product)
    (h : farfetch_parse_product_card card = some p) :
    p.product_url ≠ "" ∧ p.price ≠ 0 := by
  unfold farfetch_parse_product_card at h
  split at h
  · exact absurd h (by simp)
  · rename_i hcond
    push_neg at hcond
    cases h
    exact hcond

theorem baseStep_fold_valid (r : String) (now : ℚ) (cards : List RawCard) :
    ∀ acc : List Product, (∀ q ∈ acc, q.product_url ≠ "" ∧ q.price ≠ 0) →
      ∀ p ∈ cards.foldl (baseStep r now) acc, p.product_url ≠ "" ∧ p.price ≠ 0 := by
  induction cards with
  | nil => intro acc hacc p hp; exact hacc p hp
  | cons card tl ih =>
    intro acc hacc p hp
    rw [List.foldl_cons] at hp
    refine ih _ ?_ p hp
    intro q hq
    unfold baseStep at hq
    cases hpc : farfetch_parse_product_card card with
    | none => rw [hpc] at hq; exact hacc q hq
    | some pd =>
      rw [hpc] at hq
      simp only [List.mem_append, List.mem_singleton] at hq
      rcases hq with hq | hq
      · exact hacc q hq
      · subst hq
        exact ffparse_valid card pd hpc

theorem asosStep_fold_no_filter (now : ℚ) (minP maxP : Option ℚ)
    (hmin : pyTruthyQ minP = false) (hmax : pyTruthyQ maxP = false)
    (raws : List AsosRaw) :
    ∀ acc : List Product, raws.foldl (asosStep minP maxP now) acc
      = acc ++ raws.map (fun r => asos_transform r now) := by
  induction raws with
  | nil => intro acc; simp
  | cons raw tl ih =>
    intro acc
    rw [List.foldl_cons]
    have hstep : asosStep minP maxP now acc raw = acc ++ [asos_transform raw now] := by
      unfold asosStep
      simp [hmin, hmax]
    rw [hstep, ih]
    simp

/-! ## Claim theorems -/

/-- C1 counterexample: two adapter tasks return Products with identical
{brand, name, price} (hence equal product_hash), yet the merged result of
search_all_retailers contains both instances — the merge performs no
hash-based deduplication, so "exactly one instance" is false. -/
theorem search_all_retains_duplicate_hashes :
    (search_all_retailers dupTasks).map Prod.fst = some [pC1, pC1]
    ∧ ([pC1, pC1].countP (fun q => q.product_hash == pC1.product_hash)) = 2 := by
  constructor
  · rfl
  · simp [List.countP_cons]

/-- C1 (amended): search_all_retailers merges by plain concatenation in
completion order — every Product of every successfully completed task appears
in the result, duplicates included; no Product with an already-seen hash is
dropped. -/
theorem search_all_merge_is_concatenation :
    ∀ tasks : List (String × TaskRun), tasks.any (fun t => isHang t.2) = false →
      (search_all_retailers tasks).map Prod.fst = some ((successfulProducts tasks).flatten) :=
  fun tasks h => search_all_products_eq tasks h

/-- C1 witness: the amended theorem applied to the duplicate-product run. -/
theorem search_all_merge_is_concatenation_witness :
    dupTasks.any (fun t => isHang t.2) = false
    ∧ (search_all_retailers dupTasks).map Prod.fst
        = some ((successfulProducts dupTasks).flatten) :=
  ⟨rfl, search_all_merge_is_concatenation dupTasks rfl⟩

/-- C2: the per-adapter timeout is dead code.  A task that never returns
makes the whole search_all_retailers call block forever in as_completed
(result `none`), instead of being abandoned after 60 time units; and a task
that completes after 120 time units — beyond the bound — still contributes
all its Products, with the overall call lasting 120 units.  The inline
comment of the source ("60 second timeout per retailer") documents the
intended bound; `future.result(timeout=60)` on a future already yielded by
as_completed can never raise, so the code does not implement it. -/
theorem per_adapter_timeout_never_fires :
    search_all_retailers [("Farfetch", TaskRun.hangs)] = none
    ∧ search_all_retailers [("Farfetch", TaskRun.completes (Except.ok [pC2]) 120)]
        = some ([pC2], 120)
    ∧ 60 < 120 :=
  ⟨rfl, rfl, by norm_num⟩

/-- C4: an exception inside one adapter task is absorbed.  First, the
catch-all of BaseScraper.search_products turns any fetch exception into an
empty product list.  Second, in search_all_retailers an adapter task that
raised contributes zero Products and the merged products of the remaining
tasks are returned unchanged.  Third, whenever every task completes the call
returns a value (never propagates an exception). -/
theorem adapter_exception_isolated :
    (∀ r now e, base_search_products r now (Except.error e) = [])
    ∧ (∀ pre post name e f,
        pre.any (fun t => isHang t.2) = false →
        post.any (fun t => isHang t.2) = false →
        (search_all_retailers
            (pre ++ (name, TaskRun.completes (Except.error e) f) :: post)).map Prod.fst
          = (search_all_retailers (pre ++ post)).map Prod.fst)
    ∧ (∀ tasks : List (String × TaskRun), tasks.any (fun t => isHang t.2) = false →
        ∃ out, search_all_retailers tasks = some out) := by
  refine ⟨fun r now e => rfl, ?_, ?_⟩
  · intro pre post name e f hpre hpost
    have h1 : (pre ++ (name, TaskRun.completes (Except.error e) f) :: post).any
        (fun t => isHang t.2) = false := by
      have hmid : isHang (TaskRun.completes (Except.error e) f) = false := rfl
      simp only [List.any_append, List.any_cons, hpre, hpost, hmid,
        Bool.false_or, Bool.or_false]
    have h2 : (pre ++ post).any (fun t => isHang t.2) = false := by
      simp only [List.any_append, hpre, hpost, Bool.or_false]
    rw [search_all_products_eq _ h1, search_all_products_eq _ h2]
    simp [successfulProducts, List.filterMap_append, List.filterMap_cons]
  · intro tasks h
    refine ⟨tasks.foldl mergeStep ([], 0), ?_⟩
    unfold search_all_retailers
    simp [h]

/-- C4 witness: a raising task between completed tasks leaves the merged
products unchanged. -/
theorem adapter_exception_isolated_witness :
    ([("A", TaskRun.completes (Except.ok [pC4]) 1)].any (fun t => isHang t.2) = false)
    ∧ (([] : List (String × TaskRun)).any (fun t => isHang t.2) = false)
    ∧ (search_all_retailers
          ([("A", TaskRun.completes (Except.ok [pC4]) 1)]
            ++ ("B", TaskRun.completes (Except.error "boom") 2) :: [])).map Prod.fst
        = (search_all_retailers
            ([("A", TaskRun.completes (Except.ok [pC4]) 1)] ++ [])).map Prod.fst :=
  ⟨rfl, rfl, adapter_exception_isolated.2.1 _ _ _ _ _ rfl rfl⟩

/-- C3 counterexample: the ASOS transform never returns None, so a candidate
with no price at all survives into the result list with price 0 (its
product_url, built from the id, is non-empty), refuting "p.price > 0 for
every Product in any outcome" and "a candidate with price == 0 never
survives". -/
theorem zero_price_product_survives_asos :
    (asos_search_products (Except.ok [rawC3]) 20 none none 0).map Product.price = [0]
    ∧ (asos_search_products (Except.ok [rawC3]) 20 none none 0).map Product.product_url
        = ["https://www.asos.com/us/prd/123"]
    ∧ ¬ ((0 : ℚ) > 0) := by
  refine ⟨rfl, rfl, by norm_num⟩

/-- C3 (amended): the Farfetch parser enforces the invariant — a parsed card
with empty product_url or price equal to 0 becomes None, so every Product it
emits (and every Product of the Farfetch search pipeline) has a non-empty
product_url and a non-zero price; the ASOS transform performs no such per-item
skip: it always returns a Product whose product_url is non-empty, but its
price may be 0. -/
theorem adapter_validity_amended :
    (∀ card p, farfetch_parse_product_card card = some p →
        p.product_url ≠ "" ∧ p.price ≠ 0)
    ∧ (∀ r now fetch p, p ∈ base_search_products r now fetch →
        p.product_url ≠ "" ∧ p.price ≠ 0)
    ∧ (∀ raw now, (asos_transform raw now).product_url ≠ "") := by
  refine ⟨ffparse_valid, ?_, ?_⟩
  · intro r now fetch p hp
    cases fetch with
    | error e => exact absurd hp (by simp [base_search_products])
    | ok cards =>
      unfold base_search_products at hp
      exact baseStep_fold_valid r now cards [] (by simp) p hp
  · intro raw now h
    have hurl : (asos_transform raw now).product_url
        = "https://www.asos.com/us/prd/" ++ raw.id := rfl
    rw [hurl] at h
    have hl := congrArg String.length h
    rw [String.length_append] at hl
    have h28 : ("https://www.asos.com/us/prd/").length = 28 := rfl
    have h0 : ("").length = 0 := rfl
    omega

/-- C3 witness: the amended theorem applied to a concrete valid Farfetch card
and the concrete ASOS candidate. -/
theorem adapter_validity_amended_witness :
    farfetch_parse_product_card cardC3 = some parsedC3
    ∧ (parsedC3.product_url ≠ "" ∧ parsedC3.price ≠ 0)
    ∧ (asos_transform rawC3 0).product_url ≠ "" :=
  ⟨by decide, adapter_validity_amended.1 cardC3 parsedC3 (by decide),
   adapter_validity_amended.2.2 rawC3 0⟩

/-- C5: extract_price is total — a cleaned input that float() cannot parse
yields 0 instead of an exception — and stripping: the currency symbols and
commas are removed before parsing, so deleting them (all of them, or one
leading occurrence) never changes the result; concrete instances show symbol
and thousands-separator handling and the 0.0 fallback. -/
theorem extract_price_total_and_strips :
    (∀ l : List Char, (pythonFloat (trimChars (cleanChars l))).toOption = none →
        extractPriceChars l = 0)
    ∧ (∀ l : List Char, extractPriceChars (cleanChars l) = extractPriceChars l)
    ∧ (∀ l : List Char,
        extractPriceChars ('$' :: l) = extractPriceChars l
        ∧ extractPriceChars ('€' :: l) = extractPriceChars l
        ∧ extractPriceChars ('£' :: l) = extractPriceChars l
        ∧ extractPriceChars (',' :: l) = extractPriceChars l)
    ∧ extract_price ("$1,299") = 1299
    ∧ extract_price ("not a price") = 0 := by
  refine ⟨?_, ?_, fun l => ⟨rfl, rfl, rfl, rfl⟩, by decide, by decide⟩
  · intro l h
    unfold extractPriceChars
    cases hp : pythonFloat (trimChars (cleanChars l)) with
    | ok v => rw [hp] at h; exact absurd h (by simp [Except.toOption])
    | error e => rfl
  · intro l
    unfold extractPriceChars
    rw [cleanChars_idem]

/-- C5 witness: the totality part applied to an unparseable input. -/
theorem extract_price_total_and_strips_witness :
    (pythonFloat (trimChars (cleanChars (("xyz").toList)))).toOption = none
    ∧ extractPriceChars (("xyz").toList) = 0 :=
  ⟨by decide, extract_price_total_and_strips.1 (("xyz").toList) (by decide)⟩

/-- C6: hashing is deterministic and depends only on the {brand, name, price}
triple — any two product records agreeing on those three fields receive the
same product_hash from _generate_product_hash, however many times it is
applied and whatever their other fields hold. -/
theorem product_hash_deterministic :
    ∀ p q : Product, p.brand = q.brand → p.name = q.name → p.price = q.price →
      generate_product_hash p = generate_product_hash q := by
  intro p q h1 h2 h3
  unfold generate_product_hash hashInput
  rw [h1, h2, h3]

/-- C6 witness: two records equal on {brand, name, price} but differing
elsewhere hash identically. -/
theorem product_hash_deterministic_witness :
    pC6a.brand = pC6b.brand ∧ pC6a.name = pC6b.name ∧ pC6a.price = pC6b.price
    ∧ generate_product_hash pC6a = generate_product_hash pC6b :=
  ⟨rfl, rfl, rfl, product_hash_deterministic pC6a pC6b rfl rfl rfl⟩

/-- C7: the ASOS price filter is conjunctive and inclusive of the bounds —
min 500 and max 1000 on prices {400, 600, 900, 1200} keep exactly {600, 900},
and prices equal to a bound survive — while an absent (None) or falsy (0)
bound filters nothing out. -/
theorem price_filter_conjunctive_inclusive :
    ((asos_search_products (Except.ok rawsC7) 20 (some 500) (some 1000) 0).map
        Product.price = [600, 900])
    ∧ ((asos_search_products (Except.ok rawsC7incl) 20 (some 500) (some 1000) 0).map
        Product.price = [500, 1000])
    ∧ (∀ raws limit now, asos_search_products (Except.ok raws) limit none none now
        = (raws.take limit).map (fun r => asos_transform r now))
    ∧ (∀ raws limit now, asos_search_products (Except.ok raws) limit (some 0) (some 0) now
        = (raws.take limit).map (fun r => asos_transform r now)) := by
  refine ⟨by decide, by decide, ?_, ?_⟩
  · intro raws limit now
    show (raws.take limit).foldl (asosStep none none now) [] = _
    rw [asosStep_fold_no_filter now none none rfl rfl]
    simp
  · intro raws limit now
    show (raws.take limit).foldl (asosStep (some 0) (some 0) now) [] = _
    rw [asosStep_fold_no_filter now (some 0) (some 0) (by decide) (by decide)]
    simp

/-- C8: apply_sort with key price_asc reorders into ascending price order —
the concrete prices {900, 100, 500} become {100, 500, 900} and the result is
sorted for every input — while any unknown key returns the input list
unchanged without an error. -/
theorem apply_sort_price_asc_and_unknown :
    ((apply_sort sortPs ("price_asc")).map Product.price = [100, 500, 900])
    ∧ (∀ (l : List Product) (key : String), key ≠ "price_asc" → key ≠ "price_desc" →
        key ≠ "discount_desc" → key ≠ "date_desc" → apply_sort l key = l)
    ∧ (∀ l : List Product,
        List.Sorted (fun a b : Product => a.price ≤ b.price) (apply_sort l ("price_asc")))
    ∧ apply_sort sortPs ("unknown_key") = sortPs := by
  refine ⟨by decide, ?_, ?_, by decide⟩
  · intro l key h1 h2 h3 h4
    unfold apply_sort
    rw [if_neg h1, if_neg h2, if_neg h3, if_neg h4]
  · intro l
    have heq : apply_sort l ("price_asc")
        = l.insertionSort (fun a b => a.price ≤ b.price) := rfl
    rw [heq]
    haveI : IsTotal Product (fun a b => a.price ≤ b.price) :=
      ⟨fun a b => le_total a.price b.price⟩
    haveI : IsTrans Product (fun a b => a.price ≤ b.price) :=
      ⟨fun _ _ _ hab hbc => le_trans hab hbc⟩
    exact List.sorted_insertionSort _ l

/-- C8 witness: the unknown-key part applied to the concrete list and the key
used by the spec scenario. -/
theorem apply_sort_price_asc_and_unknown_witness :
    ("unknown_key" ≠ "price_asc") ∧ ("unknown_key" ≠ "price_desc")
    ∧ ("unknown_key" ≠ "discount_desc") ∧ ("unknown_key" ≠ "date_desc")
    ∧ apply_sort sortPs ("unknown_key") = sortPs :=
  ⟨by decide, by decide, by decide, by decide,
   apply_sort_price_asc_and_unknown.2.1 sortPs ("unknown_key")
     (by decide) (by decide) (by decide) (by decide)⟩

/-- C9: the hash input joins brand, name and price with the literal "_", so
distinct {brand, name} pairs can produce the same joined string and hence the
same product_hash: (brand "A_B", name "C") and (brand "A", name "B_C") at the
same price collide, beyond the brand+name+price coincidence the spec
acknowledges. -/
theorem product_hash_separator_collision :
    generate_product_hash pC9a = generate_product_hash pC9b
    ∧ pC9a.brand ≠ pC9b.brand ∧ pC9a.name ≠ pC9b.name ∧ pC9a.price = pC9b.price := by
  refine ⟨?_, by decide, by decide, rfl⟩
  unfold generate_product_hash
  exact congrArg sha256hex (by decide)

/-- C10: search_single_retailer is total and collapses all failure shapes to
the empty list: an unregistered retailer name yields [], a registered scraper
whose search raises yields [], a registered scraper returning products yields
exactly those products — so [] from an unknown retailer is indistinguishable
from [] from a retailer that found nothing. -/
theorem search_single_retailer_total :
    (∀ reg name, List.lookup name reg = none → search_single_retailer reg name = [])
    ∧ (∀ reg name e, List.lookup name reg = some (Except.error e) →
        search_single_retailer reg name = [])
    ∧ (∀ reg name ps, List.lookup name reg = some (Except.ok ps) →
        search_single_retailer reg name = ps)
    ∧ search_single_retailer [] ("Ounass")
        = search_single_retailer regC10 ("Farfetch") := by
  refine ⟨?_, ?_, ?_, rfl⟩
  · intro reg name h
    unfold search_single_retailer
    rw [h]
  · intro reg name e h
    unfold search_single_retailer
    rw [h]
  · intro reg name ps h
    unfold search_single_retailer
    rw [h]

/-- C10 witness: the unknown-retailer part applied to the concrete
registry. -/
theorem search_single_retailer_total_witness :
    List.lookup ("Ounass") regC10 = none
    ∧ search_single_retailer regC10 ("Ounass") = [] :=
  ⟨rfl, search_single_retailer_total.1 regC10 ("Ounass") rfl⟩

end Attireum
